import Mathlib

/-!
Verification of the oblox-fastapi-auth authentication core against its
natural-language specification.  The configuration, ORM model, wire schemas
and application lifespan are embedded from the Python source
(src/settings.py, src/models/user.py, src/schemas/user.py, src/main.py);
components of the repository that are described by the specification but
absent from the shown source (token service, encryption service, login
dispatcher, directory operations) are modelled from the specification text
and marked as such in their doc comments.
-/

/- ## Configuration (src/settings.py) -/

/-- The external environment feeding pydantic-settings: each modelled field is
either supplied (some) or absent (none).  Fields of `Settings` irrelevant to
the claims are omitted. -/
structure Env where
  auth_database_url : Option String := none
  jwt_secret_key : Option String := none
  jwt_algorithm : Option String := none
  jwt_access_token_expire_minutes : Option Int := none
  jwt_refresh_token_expire_minutes : Option Int := none
  jwt_audience : Option String := none
  encryption_key : Option String := none
  deriving Repr, DecidableEq

/-- The constructed `Settings` object of src/settings.py (modelled fields). -/
structure Settings where
  auth_database_url : String
  jwt_secret_key : String
  jwt_algorithm : String
  jwt_access_token_expire_minutes : Int
  jwt_refresh_token_expire_minutes : Int
  jwt_audience : String
  encryption_key : String
  deriving Repr, DecidableEq

/-- Default of `Settings.jwt_secret_key` in src/settings.py line 22. -/
def sampleJwtSecretDefault : String := "sample-secret-key-dont-use-in-production"

/-- Embeds construction of `Settings` (pydantic-settings semantics): a field
with a default falls back to it when the environment does not supply it;
`auth_database_url` has no default, so construction fails without it.
`generatedKey` stands for the value of `Fernet.generate_key().decode()`,
which the source evaluates once per process when the class body runs, and
which is a fresh random key in every process. -/
def mkSettings (env : Env) (generatedKey : String) : Option Settings :=
  match env.auth_database_url with
  | none => none
  | some db =>
    some
      { auth_database_url := db
        jwt_secret_key := env.jwt_secret_key.getD sampleJwtSecretDefault
        jwt_algorithm := env.jwt_algorithm.getD "HS256"
        jwt_access_token_expire_minutes :=
          env.jwt_access_token_expire_minutes.getD 30
        jwt_refresh_token_expire_minutes :=
          env.jwt_refresh_token_expire_minutes.getD (60 * 24 * 30)
        jwt_audience := env.jwt_audience.getD "fastapi-auth"
        encryption_key := env.encryption_key.getD generatedKey }

/-- An environment that supplies only the required database URL, leaving the
encryption key and the JWT secret to their defaults. -/
def minimalEnv : Env := { auth_database_url := some "sqlite+aiosqlite:///auth.db" }

/-- The refresh-token lifetime in minutes as the source defines it: the
configuration field `jwt_refresh_token_expire_minutes` is itself a number of
minutes (its default is written `60 * 24 * 30` with the comment `30 days`). -/
def refreshTokenLifetimeMinutes (s : Settings) : Int :=
  s.jwt_refresh_token_expire_minutes

/-- The refresh-token lifetime in minutes under the claim's reading that the
refresh lifetime is configured in days: a configured value of d would mean d
days, i.e. d * 60 * 24 minutes. -/
def refreshTokenLifetimeMinutesIfConfiguredInDays (s : Settings) : Int :=
  s.jwt_refresh_token_expire_minutes * (60 * 24)

/-- The access-token lifetime in minutes, per `jwt_access_token_expire_minutes`. -/
def accessTokenLifetimeMinutes (s : Settings) : Int :=
  s.jwt_access_token_expire_minutes

/- ## Wire schemas (src/schemas/user.py), pydantic v2 semantics -/

/-- A field of an incoming JSON payload: absent, explicit null, or a string. -/
inductive JsonField where
  | absent
  | null
  | strVal (s : String)
  deriving Repr, DecidableEq

/-- pydantic v2 validation of a field annotated `str` (required, not nullable). -/
def JsonField.asRequiredStr : JsonField → Option String
  | .strVal s => some s
  | _ => none

/-- pydantic v2 validation of a field annotated `str | None` with no default:
the field is required (absence fails validation) but an explicit null passes. -/
def JsonField.asNullableStr : JsonField → Option (Option String)
  | .absent => none
  | .null => some none
  | .strVal s => some (some s)

/-- True when the field carries a string value. -/
def JsonField.isStr : JsonField → Bool
  | .strVal _ => true
  | _ => false

/-- True when the field is present (explicit null counts as present). -/
def JsonField.isPresent : JsonField → Bool
  | .absent => false
  | _ => true

/-- Raw payload for `UserPasswordLoginSchema`. -/
structure UserPasswordLoginInput where
  email : JsonField := .absent
  password : JsonField := .absent
  deriving Repr, DecidableEq

/-- `UserPasswordLoginSchema` of src/schemas/user.py. -/
structure UserPasswordLoginSchema where
  email : String
  password : Option String
  deriving Repr, DecidableEq

/-- pydantic validation of `UserPasswordLoginSchema`. -/
def validateUserPasswordLogin (i : UserPasswordLoginInput) :
    Option UserPasswordLoginSchema :=
  match i.email.asRequiredStr, i.password.asNullableStr with
  | some e, some p => some { email := e, password := p }
  | _, _ => none

/-- Raw payload for `UserSignupSchema`. -/
structure UserSignupInput where
  email : JsonField := .absent
  password : JsonField := .absent
  name : JsonField := .absent
  profile_pic : JsonField := .absent
  deriving Repr, DecidableEq

/-- `UserSignupSchema` of src/schemas/user.py. -/
structure UserSignupSchema where
  email : String
  password : Option String
  name : Option String
  profile_pic : Option String
  deriving Repr, DecidableEq

/-- pydantic validation of `UserSignupSchema`. -/
def validateUserSignup (i : UserSignupInput) : Option UserSignupSchema :=
  match i.email.asRequiredStr, i.password.asNullableStr,
      i.name.asNullableStr, i.profile_pic.asNullableStr with
  | some e, some pw, some n, some pic =>
    some { email := e, password := pw, name := n, profile_pic := pic }
  | _, _, _, _ => none

/-- Raw payload for `UserJWTResponseSchema`. -/
structure UserJWTResponseInput where
  access_token : JsonField := .absent
  refresh_token : JsonField := .absent
  deriving Repr, DecidableEq

/-- `UserJWTResponseSchema` of src/schemas/user.py. -/
structure UserJWTResponseSchema where
  access_token : String
  refresh_token : String
  deriving Repr, DecidableEq

/-- pydantic validation of `UserJWTResponseSchema`. -/
def validateUserJWTResponse (i : UserJWTResponseInput) :
    Option UserJWTResponseSchema :=
  match i.access_token.asRequiredStr, i.refresh_token.asRequiredStr with
  | some a, some r => some { access_token := a, refresh_token := r }
  | _, _ => none

/-- Raw payload for `UserSocialLoginSchema`. -/
structure UserSocialLoginInput where
  provider : JsonField := .absent
  access_token : JsonField := .absent
  code : JsonField := .absent
  deriving Repr, DecidableEq

/-- `UserSocialLoginSchema` of src/schemas/user.py. -/
structure UserSocialLoginSchema where
  provider : String
  access_token : Option String
  code : Option String
  deriving Repr, DecidableEq

/-- pydantic validation of `UserSocialLoginSchema`. -/
def validateUserSocialLogin (i : UserSocialLoginInput) :
    Option UserSocialLoginSchema :=
  match i.provider.asRequiredStr, i.access_token.asNullableStr,
      i.code.asNullableStr with
  | some p, some a, some c =>
    some { provider := p, access_token := a, code := c }
  | _, _, _ => none

/-- Raw payload for `UserSignupResponseSchema`. -/
structure UserSignupResponseInput where
  access_token : JsonField := .absent
  refresh_token : JsonField := .absent
  message : JsonField := .absent
  deriving Repr, DecidableEq

/-- `UserSignupResponseSchema` of src/schemas/user.py. -/
structure UserSignupResponseSchema where
  access_token : Option String
  refresh_token : Option String
  message : String
  deriving Repr, DecidableEq

/-- pydantic validation of `UserSignupResponseSchema`. -/
def validateUserSignupResponse (i : UserSignupResponseInput) :
    Option UserSignupResponseSchema :=
  match i.access_token.asNullableStr, i.refresh_token.asNullableStr,
      i.message.asRequiredStr with
  | some a, some r, some m =>
    some { access_token := a, refresh_token := r, message := m }
  | _, _, _ => none

/- ## User model (src/models/user.py) and directory operations -/

/-- A stored row of the `auth_users` table, mirroring the column declarations
of src/models/user.py: `email` is `nullable=False` (required by type), while
`name`, `profile_pic` and `password` are nullable.  Roles mirror the
many-to-many `roles` relationship as a list of role names. -/
structure UserRecord where
  name : Option String
  email : String
  profile_pic : Option String
  password : Option String
  roles : List String
  is_staff : Bool
  deriving Repr, DecidableEq

/-- The column default of `User.is_staff` (`default=False` in
src/models/user.py). -/
def isStaffColumnDefault : Bool := false

/-- Modelled from the spec: the User Directory normalizes email case; stored
emails are case-normalized. -/
def normalizeEmail (e : String) : String := e.toLower

/-- The identity store behind the User Directory: rows keyed by a unique
opaque identifier. -/
structure Directory where
  users : List (Nat × UserRecord)
  deriving Repr, DecidableEq

/-- The data-model invariant of §3: identifiers are unique, emails are unique
and case-normalized (every stored email is a normalized form). -/
def DirectoryInvariant (d : Directory) : Prop :=
  (d.users.map Prod.fst).Nodup ∧
  (d.users.map (fun p => p.2.email)).Nodup ∧
  ∀ p ∈ d.users, ∃ raw, p.2.email = normalizeEmail raw

/-- Modelled from the spec: `findByEmail` looks a user up by normalized
email through the Session Boundary. -/
def findByEmail (d : Directory) (e : String) : Option (Nat × UserRecord) :=
  d.users.find? (fun p => p.2.email == normalizeEmail e)

/-- A fresh identifier not yet used in the directory. -/
def freshId (d : Directory) : Nat :=
  (d.users.map Prod.fst).foldr max 0 + 1

/-- Directory-level failure on signup with an email already taken. -/
inductive DirectoryError where
  | DuplicateEmail
  deriving Repr, DecidableEq

/-- The row inserted for a new user: the email is stored normalized and the
`is_staff` column default applies when no explicit value is supplied. -/
def newUserRow (email : String) (name profile_pic password : Option String)
    (staff : Option Bool) : UserRecord :=
  { name := name
    email := normalizeEmail email
    profile_pic := profile_pic
    password := password
    roles := []
    is_staff := staff.getD isStaffColumnDefault }

/-- Modelled from the spec: `create` provisions a new user, enforcing email
uniqueness at the directory boundary (fails with `DuplicateEmail`). -/
def createUser (d : Directory) (email : String)
    (name profile_pic password : Option String) (staff : Option Bool) :
    Except DirectoryError (Directory × Nat) :=
  match findByEmail d email with
  | some _ => .error .DuplicateEmail
  | none =>
    let uid := freshId d
    .ok (⟨(uid, newUserRow email name profile_pic password staff) :: d.users⟩, uid)

/-- Applies a record transformation to the user with the given identifier. -/
def mapUser (d : Directory) (uid : Nat) (g : UserRecord → UserRecord) :
    Directory :=
  ⟨d.users.map (fun p => if p.1 = uid then (p.1, g p.2) else p)⟩

/-- Modelled from the spec: `update` mutates the profile fields (display
name, profile picture, password hash) of an existing user; per §3 the
mutations are profile update and password change, which leave the email
untouched. -/
def updateUser (d : Directory) (uid : Nat)
    (name profile_pic password : Option String) : Directory :=
  mapUser d uid (fun r =>
    { r with name := name, profile_pic := profile_pic, password := password })

/-- Modelled from the spec: `assignRole` adds a role association to a user. -/
def assignRole (d : Directory) (uid : Nat) (role : String) : Directory :=
  mapUser d uid (fun r => { r with roles := role :: r.roles })

/- ## Login Strategy Dispatcher, password strategy (modelled from the spec) -/

/-- Typed login failures of §7 relevant to the password strategy. -/
inductive LoginError where
  | InvalidCredentials
  deriving Repr, DecidableEq

/-- Modelled from the spec: the Password strategy looks the user up by
normalized email and fails with `InvalidCredentials` if the user is absent,
the stored password hash is missing, or verification fails — the same error
value in all three cases.  `verify` abstracts the Credential Verifier. -/
def passwordLogin (verify : String → String → Bool) (d : Directory)
    (email plaintext : String) : Except LoginError UserRecord :=
  match findByEmail d email with
  | none => .error .InvalidCredentials
  | some (_, u) =>
    match u.password with
    | none => .error .InvalidCredentials
    | some h => if verify plaintext h then .ok u else .error .InvalidCredentials

/- ## Secret/Encryption Service (modelled from the spec) -/

/-- An encrypted secret envelope: ciphertext plus an authentication tag that
binds the key and the ciphertext. -/
structure Envelope where
  ciphertext : List Nat
  tag : Nat
  deriving Repr, DecidableEq

/-- Decryption failure is a distinct error, never a silent fallback. -/
inductive CryptoError where
  | DecryptionError
  deriving Repr, DecidableEq

/-- An injective encoding of byte lists used by the authentication tag. -/
def encodeByteList : List Nat → Nat
  | [] => 0
  | b :: rest => Nat.pair b (encodeByteList rest) + 1

/-- Modelled from the spec: `encrypt(plaintext) -> envelope` under one
process-wide symmetric key; modelled as an ideal authenticated cipher whose
tag binds key and ciphertext. -/
def encrypt (key : Nat) (plaintext : List Nat) : Envelope :=
  let ct := plaintext.map (fun b => b + key)
  ⟨ct, Nat.pair key (encodeByteList ct)⟩

/-- Modelled from the spec: `decrypt(envelope) -> plaintext | fails with
DecryptionError`; decryption succeeds exactly on genuine envelopes produced
under the same key (tampering or key mismatch fails, never a silent wrong
plaintext). -/
def decrypt (key : Nat) (env : Envelope) : Except CryptoError (List Nat) :=
  let candidate := env.ciphertext.map (fun b => b - key)
  if encrypt key candidate = env then .ok candidate
  else .error .DecryptionError

/- ## Token Service rotation state (modelled from the spec) -/

/-- Outcome of a refresh call: a new pair carrying a fresh rotation
identifier, or reuse detection on a retired identifier. -/
inductive RefreshResult where
  | success (newRotationId : Nat)
  | reuseDetected
  deriving Repr, DecidableEq

/-- True when the refresh succeeded. -/
def RefreshResult.isSuccess : RefreshResult → Bool
  | .success _ => true
  | .reuseDetected => false

/-- Revocation-tracking state: the set of retired rotation identifiers. -/
structure TokenStore where
  retired : List Nat
  deriving Repr, DecidableEq

/-- Modelled from the spec: `refresh` checks that the rotation identifier of
the presented refresh token has not been retired, retires it, and issues a
new pair — as one conditional atomic update keyed by the rotation id, which
is how §5 requires concurrent refreshes of the same token to be serialized. -/
def refreshRotate (st : TokenStore) (rot newRot : Nat) :
    RefreshResult × TokenStore :=
  if rot ∈ st.retired then (.reuseDetected, st)
  else (.success newRot, ⟨rot :: st.retired⟩)

/-- The two serializations of two concurrent refresh calls holding the same
rotation identifier `rot` (the atomic update forces one to run first):
`firstIsA = true` runs the call that would issue `a` first, otherwise the
call that would issue `b`.  Returns (result of call A, result of call B). -/
def twoConcurrentRefreshes (st : TokenStore) (rot a b : Nat)
    (firstIsA : Bool) : RefreshResult × RefreshResult :=
  if firstIsA then
    let p := refreshRotate st rot a
    (p.1, (refreshRotate p.2 rot b).1)
  else
    let p := refreshRotate st rot b
    ((refreshRotate p.2 rot a).1, p.1)

/- ## Application lifespan (src/main.py) -/

/-- Whether the lifespan body ran to completion or raised. -/
inductive BodyOutcome where
  | normal
  | exceptionRaised (message : String)
  deriving Repr, DecidableEq

/-- Process-level resource state: whether the database engine handle has
been disposed. -/
structure AppState where
  engineDisposed : Bool
  deriving Repr, DecidableEq

/-- try/finally semantics: the finalizer runs after the body on every exit
path, and the body's outcome (normal or exception) propagates. -/
def tryFinallyRun (body : AppState → BodyOutcome × AppState)
    (finalizer : AppState → AppState) (st : AppState) :
    BodyOutcome × AppState :=
  let p := body st
  (p.1, finalizer p.2)

/-- `await engine.dispose()` of src/main.py. -/
def disposeEngine (st : AppState) : AppState := { st with engineDisposed := true }

/-- Embeds `lifespan` of src/main.py: `try: yield` (the body is the served
application) `finally: await engine.dispose()`. -/
def lifespanRun (body : AppState → BodyOutcome × AppState) (st : AppState) :
    BodyOutcome × AppState :=
  tryFinallyRun body disposeEngine st

/- ## Helper lemmas -/

theorem le_foldr_max (l : List Nat) : ∀ n ∈ l, n ≤ l.foldr max 0 := by
  induction l with
  | nil => intro n h; cases h
  | cons a t ih =>
    intro n h
    rcases List.mem_cons.mp h with rfl | h
    · exact le_max_left _ _
    · exact le_trans (ih n h) (le_max_right _ _)

theorem freshId_not_mem (d : Directory) : freshId d ∉ d.users.map Prod.fst := by
  intro h
  have hle := le_foldr_max _ _ h
  simp only [freshId] at hle
  omega

theorem findByEmail_none_not_mem (d : Directory) (e : String)
    (h : findByEmail d e = none) :
    normalizeEmail e ∉ d.users.map (fun p => p.2.email) := by
  intro hmem
  simp only [List.mem_map] at hmem
  obtain ⟨p, hp, heq⟩ := hmem
  rw [findByEmail] at h
  have hne := List.find?_eq_none.mp h p hp
  simp [heq] at hne

theorem mapUser_map_fst (d : Directory) (uid : Nat)
    (g : UserRecord → UserRecord) :
    (mapUser d uid g).users.map Prod.fst = d.users.map Prod.fst := by
  simp only [mapUser, List.map_map]
  apply List.map_congr_left
  intro p _
  by_cases h : p.1 = uid <;> simp [h, Function.comp]

theorem mapUser_map_email (d : Directory) (uid : Nat)
    (g : UserRecord → UserRecord) (hg : ∀ r, (g r).email = r.email) :
    (mapUser d uid g).users.map (fun p => p.2.email)
      = d.users.map (fun p => p.2.email) := by
  simp only [mapUser, List.map_map]
  apply List.map_congr_left
  intro p _
  by_cases h : p.1 = uid <;> simp [h, hg, Function.comp]

theorem mapUser_invariant (d : Directory) (uid : Nat)
    (g : UserRecord → UserRecord) (hg : ∀ r, (g r).email = r.email)
    (hd : DirectoryInvariant d) : DirectoryInvariant (mapUser d uid g) := by
  obtain ⟨h1, h2, h3⟩ := hd
  refine ⟨by rw [mapUser_map_fst]; exact h1,
    by rw [mapUser_map_email d uid g hg]; exact h2, ?_⟩
  intro p hp
  simp only [mapUser, List.mem_map] at hp
  obtain ⟨q, hq, rfl⟩ := hp
  by_cases h : q.1 = uid
  · simpa [h, hg] using h3 q hq
  · simpa [h] using h3 q hq

theorem createUser_invariant (d : Directory) (hd : DirectoryInvariant d)
    (email : String) (name pic pw : Option String) (staff : Option Bool)
    (d' : Directory) (uid : Nat)
    (h : createUser d email name pic pw staff = .ok (d', uid)) :
    DirectoryInvariant d' := by
  obtain ⟨h1, h2, h3⟩ := hd
  cases hfind : findByEmail d email with
  | some p => simp [createUser, hfind] at h
  | none =>
    simp only [createUser, hfind, Except.ok.injEq, Prod.mk.injEq] at h
    obtain ⟨rfl, rfl⟩ := h
    refine ⟨?_, ?_, ?_⟩
    · simp only [List.map_cons]
      exact List.nodup_cons.mpr ⟨freshId_not_mem d, h1⟩
    · simp only [List.map_cons, newUserRow]
      exact List.nodup_cons.mpr ⟨findByEmail_none_not_mem d email hfind, h2⟩
    · intro p hp
      rcases List.mem_cons.mp hp with rfl | hp
      · exact ⟨email, rfl⟩
      · exact h3 p hp

/- ## Claim theorems -/

/-- C1: the claim says the effective encryption key is the same across any
two runs under the same external configuration, even one that does not set
the key explicitly.  The code instead evaluates `Fernet.generate_key()` as
the field default once per process, so two runs under the same key-less
configuration end up with two different effective keys: here the same
`minimalEnv` (which leaves `encryption_key` unset) combined with two
distinct per-boot generated keys yields two distinct effective keys. -/
theorem c1_encryption_key_fresh_per_boot :
    minimalEnv.encryption_key = none ∧
    (mkSettings minimalEnv "boot-1-generated-key").map Settings.encryption_key
      = some "boot-1-generated-key" ∧
    (mkSettings minimalEnv "boot-2-generated-key").map Settings.encryption_key
      = some "boot-2-generated-key" ∧
    (mkSettings minimalEnv "boot-1-generated-key").map Settings.encryption_key
      ≠ (mkSettings minimalEnv "boot-2-generated-key").map
          Settings.encryption_key := by
  refine ⟨rfl, rfl, rfl, ?_⟩
  decide

/-- C2 counterexample: with an environment that supplies the database URL
but no `jwt_secret_key`, constructing `Settings` succeeds (it does not fail
at startup); the signing key silently falls back to the insecure sample
default. -/
theorem c2_counterexample_missing_secret_not_fatal :
    minimalEnv.jwt_secret_key = none ∧
    mkSettings minimalEnv "boot-key" =
      some { auth_database_url := "sqlite+aiosqlite:///auth.db"
             jwt_secret_key := sampleJwtSecretDefault
             jwt_algorithm := "HS256"
             jwt_access_token_expire_minutes := 30
             jwt_refresh_token_expire_minutes := 43200
             jwt_audience := "fastapi-auth"
             encryption_key := "boot-key" } :=
  ⟨rfl, rfl⟩

/-- C2 (amended): a missing `jwt_secret_key` never makes `Settings`
construction fail — construction fails exactly when the required
`auth_database_url` is missing — and when construction succeeds without a
supplied signing key, the key is the hard-coded sample default. -/
theorem c2_amended_missing_secret_defaults (env : Env) (g : String)
    (hjwt : env.jwt_secret_key = none) :
    (mkSettings env g = none ↔ env.auth_database_url = none) ∧
    ∀ s, mkSettings env g = some s →
      s.jwt_secret_key = sampleJwtSecretDefault := by
  cases hdb : env.auth_database_url with
  | none => simp [mkSettings, hdb]
  | some db =>
    constructor
    · simp [mkSettings, hdb]
    · intro s hs
      simp only [mkSettings, hdb, Option.some.injEq] at hs
      rw [← hs]
      simp [hjwt]

/-- Witness for C2 (amended) at the concrete key-less environment. -/
theorem c2_amended_missing_secret_defaults_witness :
    (mkSettings minimalEnv "boot-key" = none ↔
      minimalEnv.auth_database_url = none) ∧
    ∀ s, mkSettings minimalEnv "boot-key" = some s →
      s.jwt_secret_key = sampleJwtSecretDefault :=
  c2_amended_missing_secret_defaults minimalEnv "boot-key" rfl

/-- An environment that sets the refresh-token knob
`jwt_refresh_token_expire_minutes` to 1. -/
def refreshOneUnitEnv : Env :=
  { auth_database_url := some "sqlite+aiosqlite:///auth.db"
    jwt_refresh_token_expire_minutes := some 1 }

/-- C8 counterexample: the refresh lifetime is configured in minutes, not in
days.  Setting the configuration knob to 1, the code-defined lifetime is 1
minute, while under the claim's days reading it would be 1440 minutes; the
two readings disagree. -/
theorem c8_counterexample_refresh_configured_in_minutes :
    (mkSettings refreshOneUnitEnv "k").map refreshTokenLifetimeMinutes
      = some 1 ∧
    (mkSettings refreshOneUnitEnv "k").map
        refreshTokenLifetimeMinutesIfConfiguredInDays = some 1440 ∧
    (1 : Int) ≠ 1440 := by
  refine ⟨rfl, rfl, ?_⟩
  decide

/-- C8 (amended): both token lifetimes are configured in minutes; in the
default configuration the access token lives 30 minutes and the refresh
token 43200 minutes, which is exactly 30 days, so the default refresh
lifetime strictly exceeds the default access lifetime. -/
theorem c8_amended_default_lifetimes (env : Env) (g : String) (s : Settings)
    (h : mkSettings env g = some s)
    (ha : env.jwt_access_token_expire_minutes = none)
    (hr : env.jwt_refresh_token_expire_minutes = none) :
    accessTokenLifetimeMinutes s = 30 ∧
    refreshTokenLifetimeMinutes s = 43200 ∧
    refreshTokenLifetimeMinutes s = 30 * (60 * 24) ∧
    accessTokenLifetimeMinutes s < refreshTokenLifetimeMinutes s := by
  cases hdb : env.auth_database_url with
  | none => simp [mkSettings, hdb] at h
  | some db =>
    simp only [mkSettings, hdb, Option.some.injEq] at h
    rw [← h]
    simp [accessTokenLifetimeMinutes, refreshTokenLifetimeMinutes, ha, hr]

/-- Witness for C8 (amended) at the concrete default environment. -/
theorem c8_amended_default_lifetimes_witness :
    accessTokenLifetimeMinutes
        { auth_database_url := "sqlite+aiosqlite:///auth.db"
          jwt_secret_key := sampleJwtSecretDefault
          jwt_algorithm := "HS256"
          jwt_access_token_expire_minutes := 30
          jwt_refresh_token_expire_minutes := 43200
          jwt_audience := "fastapi-auth"
          encryption_key := "boot-key" } = 30 ∧
    refreshTokenLifetimeMinutes
        { auth_database_url := "sqlite+aiosqlite:///auth.db"
          jwt_secret_key := sampleJwtSecretDefault
          jwt_algorithm := "HS256"
          jwt_access_token_expire_minutes := 30
          jwt_refresh_token_expire_minutes := 43200
          jwt_audience := "fastapi-auth"
          encryption_key := "boot-key" } = 43200 ∧
    refreshTokenLifetimeMinutes
        { auth_database_url := "sqlite+aiosqlite:///auth.db"
          jwt_secret_key := sampleJwtSecretDefault
          jwt_algorithm := "HS256"
          jwt_access_token_expire_minutes := 30
          jwt_refresh_token_expire_minutes := 43200
          jwt_audience := "fastapi-auth"
          encryption_key := "boot-key" } = 30 * (60 * 24) ∧
    accessTokenLifetimeMinutes
        { auth_database_url := "sqlite+aiosqlite:///auth.db"
          jwt_secret_key := sampleJwtSecretDefault
          jwt_algorithm := "HS256"
          jwt_access_token_expire_minutes := 30
          jwt_refresh_token_expire_minutes := 43200
          jwt_audience := "fastapi-auth"
          encryption_key := "boot-key" } <
      refreshTokenLifetimeMinutes
        { auth_database_url := "sqlite+aiosqlite:///auth.db"
          jwt_secret_key := sampleJwtSecretDefault
          jwt_algorithm := "HS256"
          jwt_access_token_expire_minutes := 30
          jwt_refresh_token_expire_minutes := 43200
          jwt_audience := "fastapi-auth"
          encryption_key := "boot-key" } :=
  c8_amended_default_lifetimes minimalEnv "boot-key" _ rfl rfl rfl

/-- C6 counterexample: the fields annotated `str | None` carry no default, so
under pydantic v2 they are required: omitting them fails validation, contrary
to the claim that they may be omitted.  Omitting `password` from a password
login, `password`/`name`/`profile_pic` from a signup, `access_token`/`code`
from a social login, and `access_token`/`refresh_token` from a signup
response all fail even though every claimed-required field is supplied. -/
theorem c6_counterexample_nullable_fields_not_omittable :
    validateUserPasswordLogin { email := .strVal "a@x.com" } = none ∧
    validateUserSignup { email := .strVal "a@x.com" } = none ∧
    validateUserSocialLogin { provider := .strVal "google" } = none ∧
    validateUserSignupResponse { message := .strVal "created" } = none :=
  ⟨rfl, rfl, rfl, rfl⟩

/-- C6 (amended): every field of all five schemas is required — validation
fails whenever any field is absent from the payload.  The fields annotated
`str | None` (password, name, profile_pic, access_token, code, and the
signup-response tokens) accept an explicit null but may not be omitted,
while the plain `str` fields (email, provider, message, and both fields of
`UserJWTResponseSchema`) additionally reject null. -/
theorem c6_amended_every_field_required :
    (∀ i : UserPasswordLoginInput, (validateUserPasswordLogin i).isSome ↔
      (i.email.isStr = true ∧ i.password.isPresent = true)) ∧
    (∀ i : UserSignupInput, (validateUserSignup i).isSome ↔
      (i.email.isStr = true ∧ i.password.isPresent = true ∧
       i.name.isPresent = true ∧ i.profile_pic.isPresent = true)) ∧
    (∀ i : UserJWTResponseInput, (validateUserJWTResponse i).isSome ↔
      (i.access_token.isStr = true ∧ i.refresh_token.isStr = true)) ∧
    (∀ i : UserSocialLoginInput, (validateUserSocialLogin i).isSome ↔
      (i.provider.isStr = true ∧ i.access_token.isPresent = true ∧
       i.code.isPresent = true)) ∧
    (∀ i : UserSignupResponseInput, (validateUserSignupResponse i).isSome ↔
      (i.access_token.isPresent = true ∧ i.refresh_token.isPresent = true ∧
       i.message.isStr = true)) := by
  refine ⟨?_, ?_, ?_, ?_, ?_⟩
  · rintro ⟨f1, f2⟩
    cases f1 <;> cases f2 <;>
      simp [validateUserPasswordLogin, JsonField.asRequiredStr,
        JsonField.asNullableStr, JsonField.isStr, JsonField.isPresent]
  · rintro ⟨f1, f2, f3, f4⟩
    cases f1 <;> cases f2 <;> cases f3 <;> cases f4 <;>
      simp [validateUserSignup, JsonField.asRequiredStr,
        JsonField.asNullableStr, JsonField.isStr, JsonField.isPresent]
  · rintro ⟨f1, f2⟩
    cases f1 <;> cases f2 <;>
      simp [validateUserJWTResponse, JsonField.asRequiredStr,
        JsonField.asNullableStr, JsonField.isStr, JsonField.isPresent]
  · rintro ⟨f1, f2, f3⟩
    cases f1 <;> cases f2 <;> cases f3 <;>
      simp [validateUserSocialLogin, JsonField.asRequiredStr,
        JsonField.asNullableStr, JsonField.isStr, JsonField.isPresent]
  · rintro ⟨f1, f2, f3⟩
    cases f1 <;> cases f2 <;> cases f3 <;>
      simp [validateUserSignupResponse, JsonField.asRequiredStr,
        JsonField.asNullableStr, JsonField.isStr, JsonField.isPresent]

/-- C7: every stored user has a required email (by the type of
`UserRecord.email`) while name, profile picture and password hash are
optional; the directory invariant — unique identifiers, unique
case-normalized emails — is preserved by `create` (which also enforces
uniqueness via `DuplicateEmail`), by profile `update`, and by `assignRole`. -/
theorem c7_directory_invariant_preserved (d : Directory)
    (hd : DirectoryInvariant d) :
    (∀ email name pic pw staff d' uid,
        createUser d email name pic pw staff = .ok (d', uid) →
        DirectoryInvariant d') ∧
    (∀ uid name pic pw, DirectoryInvariant (updateUser d uid name pic pw)) ∧
    (∀ uid role, DirectoryInvariant (assignRole d uid role)) := by
  refine ⟨?_, ?_, ?_⟩
  · intro email name pic pw staff d' uid h
    exact createUser_invariant d hd email name pic pw staff d' uid h
  · intro uid name pic pw
    exact mapUser_invariant d uid _ (fun r => rfl) hd
  · intro uid role
    exact mapUser_invariant d uid _ (fun r => rfl) hd

/-- Witness for C7 at the empty directory: the invariant holds there and is
preserved by a profile update. -/
theorem c7_directory_invariant_preserved_witness :
    DirectoryInvariant (updateUser ⟨[]⟩ 1 (some "n") none none) :=
  (c7_directory_invariant_preserved ⟨[]⟩
    ⟨List.nodup_nil, List.nodup_nil,
      fun p hp => absurd hp (List.not_mem_nil p)⟩).2.1 1 (some "n") none none

/-- C10: a user row created without an explicit `is_staff` value receives the
`is_staff` column default of src/models/user.py, which is `False`: a new user
is never staff by default. -/
theorem c10_new_user_not_staff_by_default (email : String)
    (name pic pw : Option String) :
    (newUserRow email name pic pw none).is_staff = isStaffColumnDefault ∧
    (newUserRow email name pic pw none).is_staff = false :=
  ⟨rfl, rfl⟩

/-- C5: password login fails with the very same `InvalidCredentials` value —
identical error shape — whether the email is not found, the stored user has
no password hash, or password verification fails; any failure of
`passwordLogin` is that one error, so a caller cannot distinguish a
nonexistent account from a wrong password. -/
theorem c5_uniform_invalid_credentials (verify : String → String → Bool)
    (d : Directory) (email plaintext : String) :
    (∀ e, passwordLogin verify d email plaintext = .error e →
      e = .InvalidCredentials) ∧
    (findByEmail d email = none →
      passwordLogin verify d email plaintext = .error .InvalidCredentials) ∧
    (∀ uid u, findByEmail d email = some (uid, u) → u.password = none →
      passwordLogin verify d email plaintext = .error .InvalidCredentials) ∧
    (∀ uid u hsh, findByEmail d email = some (uid, u) →
      u.password = some hsh → verify plaintext hsh = false →
      passwordLogin verify d email plaintext = .error .InvalidCredentials) := by
  refine ⟨fun e _ => by cases e; rfl, ?_, ?_, ?_⟩
  · intro hfind
    simp [passwordLogin, hfind]
  · intro uid u hfind hpw
    simp [passwordLogin, hfind, hpw]
  · intro uid u hsh hfind hpw hv
    simp [passwordLogin, hfind, hpw, hv]

/-- Witness for C5: looking up an email in an empty directory fails with
`InvalidCredentials`. -/
theorem c5_uniform_invalid_credentials_witness :
    passwordLogin (fun a b => a == b) ⟨[]⟩ "a@x.com" "pw"
      = .error .InvalidCredentials :=
  (c5_uniform_invalid_credentials (fun a b => a == b) ⟨[]⟩ "a@x.com" "pw").2.1
    rfl

/-- C4: decryption of a genuine envelope returns exactly the original
plaintext; any envelope that is not a genuine encryption under the key (a
tampered one in particular) fails with `DecryptionError`; and decryption
never succeeds with corrupted plaintext — success implies the envelope is
the genuine encryption of the returned value. -/
theorem c4_encrypt_decrypt_roundtrip (key : Nat) :
    (∀ x, decrypt key (encrypt key x) = .ok x) ∧
    (∀ env, (∀ x, env ≠ encrypt key x) →
      decrypt key env = .error .DecryptionError) ∧
    (∀ env x, decrypt key env = .ok x → env = encrypt key x) := by
  refine ⟨?_, ?_, ?_⟩
  · intro x
    simp [decrypt, encrypt, List.map_map, Function.comp_def,
      Nat.add_sub_cancel]
  · intro env h
    rw [decrypt]
    split
    · next hcond => exact absurd hcond.symm (h _)
    · rfl
  · intro env x h
    rw [decrypt] at h
    split at h
    · next hcond =>
      simp only [Except.ok.injEq] at h
      rw [← hcond, h]
    · cases h

/-- Witness for C4: a round trip at key 5, and a tampered envelope — the
genuine envelope of [4] with its single ciphertext byte flipped from 9 to 8
while keeping the original tag — rejected with `DecryptionError`. -/
theorem c4_encrypt_decrypt_roundtrip_witness :
    decrypt 5 (encrypt 5 [1, 2, 3]) = .ok [1, 2, 3] ∧
    decrypt 5 ⟨[8], (encrypt 5 [4]).tag⟩ = .error .DecryptionError :=
  ⟨(c4_encrypt_decrypt_roundtrip 5).1 [1, 2, 3],
    (c4_encrypt_decrypt_roundtrip 5).2.1 ⟨[8], (encrypt 5 [4]).tag⟩ (by
      intro x hx
      have hct : ([8] : List Nat) = x.map (fun b => b + 5) :=
        congrArg Envelope.ciphertext hx
      match x, hct with
      | [a], hct =>
        have ha : a = 3 := by
          simp only [List.map_cons, List.map_nil, List.cons.injEq] at hct
          omega
        subst ha
        exact absurd (congrArg Envelope.tag hx) (by decide))⟩

/-- C3: two refresh calls holding the same not-yet-retired rotation
identifier, executed under the conditional atomic update that serializes
them, yield exactly one success and one `reuseDetected` in either possible
serialization — never two successes. -/
theorem c3_concurrent_refresh_one_success (st : TokenStore) (rot a b : Nat)
    (firstIsA : Bool) (h : rot ∉ st.retired) :
    ((twoConcurrentRefreshes st rot a b firstIsA).1 = .success a ∧
     (twoConcurrentRefreshes st rot a b firstIsA).2 = .reuseDetected) ∨
    ((twoConcurrentRefreshes st rot a b firstIsA).2 = .success b ∧
     (twoConcurrentRefreshes st rot a b firstIsA).1 = .reuseDetected) := by
  cases firstIsA
  · right
    simp [twoConcurrentRefreshes, refreshRotate, h]
  · left
    simp [twoConcurrentRefreshes, refreshRotate, h]

/-- Witness for C3: a fresh store, rotation identifier 7, both
serializations. -/
theorem c3_concurrent_refresh_one_success_witness :
    (((twoConcurrentRefreshes ⟨[]⟩ 7 1 2 true).1 = .success 1 ∧
      (twoConcurrentRefreshes ⟨[]⟩ 7 1 2 true).2 = .reuseDetected) ∨
     ((twoConcurrentRefreshes ⟨[]⟩ 7 1 2 true).2 = .success 2 ∧
      (twoConcurrentRefreshes ⟨[]⟩ 7 1 2 true).1 = .reuseDetected)) ∧
    (((twoConcurrentRefreshes ⟨[]⟩ 7 1 2 false).1 = .success 1 ∧
      (twoConcurrentRefreshes ⟨[]⟩ 7 1 2 false).2 = .reuseDetected) ∨
     ((twoConcurrentRefreshes ⟨[]⟩ 7 1 2 false).2 = .success 2 ∧
      (twoConcurrentRefreshes ⟨[]⟩ 7 1 2 false).1 = .reuseDetected)) :=
  ⟨c3_concurrent_refresh_one_success ⟨[]⟩ 7 1 2 true (by decide),
   c3_concurrent_refresh_one_success ⟨[]⟩ 7 1 2 false (by decide)⟩

/-- C9: the lifespan of src/main.py wraps the served application in
try/finally, so the engine handle is disposed on every exit path — whatever
the body does to the state and whether it finishes normally or raises — and
the body's outcome still propagates. -/
theorem c9_engine_disposed_on_every_exit_path
    (body : AppState → BodyOutcome × AppState) (st : AppState) :
    (lifespanRun body st).2.engineDisposed = true ∧
    (lifespanRun body st).1 = (body st).1 :=
  ⟨rfl, rfl⟩
